import Mathlib

/-!
Shallow embedding of the command defined in
src/src/commands/aws-connect/list-instances.ts (class ListInstances).

Modelling conventions:
* Every string-valued CLI flag that may be absent is an Option String; a
  JavaScript string is truthy exactly when it is defined and non-empty.
* The AWS SDK and the oclif flag framework are external collaborators: the
  outcome of obtaining the Connect client and sending the one
  ListInstancesCommand is an input to the embedded function, and the type of
  the instance summaries is an arbitrary type parameter, since the command
  treats each summary as opaque and passes it through unmodified.
* Output channels are modelled as a list of emitted output items; a fatal
  framework error (this.error) ends the command with a message and an exit
  status, a normal return ends it with exit status 0.
-/

/-- JavaScript truthiness of an optional string: undefined and the empty
string are falsy, every other string is truthy. -/
def truthy : Option String → Bool
  | none => false
  | some s => !(s == "")

/-- The flag set produced by parsing the command line: the five flags the
command declares (region has the default "ap-southeast-2" applied by the
parser, so it is always a plain string here). -/
structure ParsedFlags where
  profile : Option String
  region : String
  accessKeyId : Option String
  secretAccessKey : Option String
  secretSessionToken : Option String
  deriving Repr, DecidableEq

/-- The TAwsAccessFlags record built at the top of ListInstances.run. -/
structure TAwsAccessFlags where
  accessKeyId : Option String
  authMethod : String
  profile : Option String
  region : String
  secretAccessKey : Option String
  secretSessionToken : Option String
  deriving Repr, DecidableEq

/-- The config literal of ListInstances.run.  The source initialises the
last field as `flags.secretToken`; the command declares no flag named
secretToken, so in JavaScript that property access yields undefined, embedded
here as none. -/
def buildConfig (flags : ParsedFlags) : TAwsAccessFlags :=
  { accessKeyId := flags.accessKeyId
    authMethod := if truthy flags.profile then "sso" else "accessKey"
    profile := flags.profile
    region := flags.region
    secretAccessKey := flags.secretAccessKey
    secretSessionToken := none }

/-- The isAuthValid boolean of ListInstances.run, with JavaScript
truthiness made explicit. -/
def isAuthValid (config : TAwsAccessFlags) : Bool :=
  truthy config.profile ||
    (truthy config.accessKeyId && truthy config.secretAccessKey &&
      truthy config.secretSessionToken)

/-- The behaviour of the external collaborators inside the try block of
ListInstances.listInstances: either the client is obtained and the send of
the ListInstancesCommand resolves to a response whose InstanceSummaryList is
an optional list, or a value is thrown.  A thrown value is either an
instance of Error, carrying a name and a message, or some other value. -/
inductive ClientOutcome (α : Type) where
  | success (instanceSummaryList : Option (List α))
  | throwErr (name : String) (message : String)
  | throwNonError
  deriving Repr, DecidableEq

/-- One item emitted on an output channel: a log line (this.log or the
informational message) or the dump of the instance list printed by
console.log. -/
inductive OutputLine (α : Type) where
  | logLine (line : String)
  | instancesDump (instances : List α)
  deriving Repr, DecidableEq

/-- How one invocation of the command ends: a normal return (exit status 0)
or a fatal framework error with a message and an exit status.  Either way
the items emitted before the end are carried along. -/
inductive CmdResult (α : Type) where
  | ok (output : List (OutputLine α))
  | fatal (output : List (OutputLine α)) (message : String) (exit : Nat)
  deriving Repr, DecidableEq

/-- The exit status of a finished invocation. -/
def exitCode {α : Type} : CmdResult α → Nat
  | .ok _ => 0
  | .fatal _ _ e => e

/-- What run did overall: whether the list request stage was reached (the
client obtained and the request issued) and how the command ended. -/
structure RunTrace (α : Type) where
  listRequestSent : Bool
  result : CmdResult α
  deriving Repr, DecidableEq

/-- The informational message for an absent or empty instance list. -/
def noInstancesMsg : String := "No Amazon Connect instances found."

/-- The dedicated authentication-error message. -/
def authErrorMsg : String :=
  "Authentication Error: Please check your AWS credentials and region."

/-- The generic listing-error message built from the underlying message. -/
def listErrorMsg (m : String) : String :=
  "Error listing Amazon Connect instances: " ++ m

/-- The configuration-error message of ListInstances.run. -/
def authRequiredMsg : String :=
  "Auth is required: either AWS profile or access key credentials (accessKeyId, secretAccessKey and secretSessionToken) must be provided."

/-- Modelled from the spec: the exit status used by the framework error
helper (this.error) when the source passes no explicit exit option, as in
both error reports of ListInstances.listInstances.  The flag framework is an
external collaborator whose source is not part of this repository; the spec
fixes the status of every reported error at 1. -/
def defaultErrorExit : Nat := 1

/-- ListInstances.listInstances, given the collaborator outcome.  The guard
on the response mirrors the source condition: the summary list is absent, or
it is present with length 0. -/
def listInstances {α : Type} (outcome : ClientOutcome α) : CmdResult α :=
  match outcome with
  | .success l =>
      match l with
      | none => .ok [.logLine noInstancesMsg]
      | some xs =>
          if xs.length == 0 then .ok [.logLine noInstancesMsg]
          else .ok [.instancesDump xs]
  | .throwErr n m =>
      if n == "UnrecognizedClientException" then
        .fatal [] authErrorMsg defaultErrorExit
      else
        .fatal [] (listErrorMsg m) defaultErrorExit
  | .throwNonError => .ok []

/-- ListInstances.run: build the config, check isAuthValid, and either stop
with the configuration error (explicit exit option 1 in the source) or go on
to the list request. -/
def run {α : Type} (flags : ParsedFlags) (outcome : ClientOutcome α) :
    RunTrace α :=
  let config := buildConfig flags
  if !(isAuthValid config) then
    { listRequestSent := false
      result := .fatal [] authRequiredMsg 1 }
  else
    { listRequestSent := true
      result := listInstances outcome }

/-- The flag set of claim C1: accessKeyId A, secretAccessKey B,
secretSessionToken C, no profile, default region. -/
def accessKeyFlagsABC : ParsedFlags :=
  { profile := none
    region := "ap-southeast-2"
    accessKeyId := some "A"
    secretAccessKey := some "B"
    secretSessionToken := some "C" }

/-- A flag set supplying nothing but the default region. -/
def emptyFlags : ParsedFlags :=
  { profile := none
    region := "ap-southeast-2"
    accessKeyId := none
    secretAccessKey := none
    secretSessionToken := none }

/-- The flag set with profile dev and no access-key flags. -/
def devFlags : ParsedFlags :=
  { profile := some "dev"
    region := "ap-southeast-2"
    accessKeyId := none
    secretAccessKey := none
    secretSessionToken := none }

/-- The flag set where profile is supplied but is the empty string. -/
def emptyProfileFlags : ParsedFlags :=
  { profile := some ""
    region := "ap-southeast-2"
    accessKeyId := none
    secretAccessKey := none
    secretSessionToken := none }

/-- C1: contrary to the claim, with accessKeyId A, secretAccessKey B,
secretSessionToken C and no profile, the built config fails validation and
the command terminates with the fatal configuration error (exit 1) without
sending the list request, because the config copies the undeclared property
flags.secretToken instead of the secretSessionToken flag. -/
theorem C1_accessKey_triple_rejected :
    run (α := Nat) accessKeyFlagsABC (.success (some [0])) =
      { listRequestSent := false
        result := .fatal [] authRequiredMsg 1 } := rfl

/-- C2: for every parsed flag set, the built config's secretSessionToken is
undefined (none) whatever the secretSessionToken flag holds, and the config
passes validation exactly when the profile flag is truthy, so the
access-key branch of the disjunction never makes a config valid. -/
theorem C2_secretToken_always_undefined (flags : ParsedFlags) :
    (buildConfig flags).secretSessionToken = none ∧
      (isAuthValid (buildConfig flags) = true ↔ truthy flags.profile = true) := by
  refine ⟨rfl, ?_⟩
  simp [isAuthValid, buildConfig, truthy]

/-- C3: whenever neither the profile flag is truthy nor all three of the
accessKeyId, secretAccessKey and secretSessionToken flags are truthy, the
command ends with the fatal configuration error, exit status 1, and the list
request stage is never reached, whatever the collaborator would have done. -/
theorem C3_invalid_flags_fatal_no_request {α : Type} (flags : ParsedFlags)
    (outcome : ClientOutcome α)
    (hp : truthy flags.profile = false)
    (_hk : ¬(truthy flags.accessKeyId = true ∧ truthy flags.secretAccessKey = true ∧
      truthy flags.secretSessionToken = true)) :
    run flags outcome =
      { listRequestSent := false
        result := .fatal [] authRequiredMsg 1 } ∧
      exitCode (run flags outcome).result = 1 := by
  have h : isAuthValid (buildConfig flags) = false := by
    simp only [isAuthValid, buildConfig]
    rw [hp]
    simp [truthy]
  refine ⟨?_, ?_⟩ <;> simp [run, h, exitCode]

/-- Witness for C3 at the concrete flag set supplying nothing. -/
theorem C3_invalid_flags_fatal_no_request_witness :
    run (α := Nat) emptyFlags (.success (some [5])) =
      { listRequestSent := false
        result := .fatal [] authRequiredMsg 1 } ∧
      exitCode (run (α := Nat) emptyFlags (.success (some [5]))).result = 1 :=
  C3_invalid_flags_fatal_no_request emptyFlags (.success (some [5]))
    (by decide) (by decide)

/-- C4 counterexample: a profile flag that is supplied but empty is present,
yet the built config's authMethod is "accessKey", not "sso", because the
source tests JavaScript truthiness of the profile, not its presence. -/
theorem C4_present_profile_not_sso :
    emptyProfileFlags.profile.isSome = true ∧
      (buildConfig emptyProfileFlags).authMethod ≠ "sso" := by
  refine ⟨rfl, ?_⟩
  decide

/-- C4 amended: authMethod is derived solely from the profile flag, and it
is "sso" exactly when profile is truthy (present and non-empty), otherwise
"accessKey"; with profile dev and no access-key flags the command passes
validation and goes on to the list request with authMethod "sso". -/
theorem C4_authMethod_from_profile (f g : ParsedFlags)
    (h : f.profile = g.profile) :
    (buildConfig f).authMethod = (buildConfig g).authMethod ∧
      ((buildConfig f).authMethod = "sso" ↔ truthy f.profile = true) ∧
      ((buildConfig f).authMethod = "accessKey" ↔ truthy f.profile = false) ∧
      (run (α := Nat) devFlags (.success (some [0]))).listRequestSent = true ∧
      (buildConfig devFlags).authMethod = "sso" := by
  refine ⟨by simp [buildConfig, h], ?_, ?_, rfl, rfl⟩ <;>
    cases htp : truthy f.profile <;> simp [buildConfig, htp]

/-- Witness for C4 amended at the concrete dev flag set. -/
theorem C4_authMethod_from_profile_witness :
    (buildConfig devFlags).authMethod = (buildConfig devFlags).authMethod ∧
      ((buildConfig devFlags).authMethod = "sso" ↔ truthy devFlags.profile = true) ∧
      ((buildConfig devFlags).authMethod = "accessKey" ↔
        truthy devFlags.profile = false) ∧
      (run (α := Nat) devFlags (.success (some [0]))).listRequestSent = true ∧
      (buildConfig devFlags).authMethod = "sso" :=
  C4_authMethod_from_profile devFlags devFlags rfl

/-- Appending strings appends their character data. -/
theorem string_data_append (s t : String) : (s ++ t).data = s.data ++ t.data := rfl

/-- C5: a thrown Error named UnrecognizedClientException yields the
dedicated authentication-error message — which differs from the generic
listing-error message whatever the underlying message — with nothing else on
the output channels and exit status 1. -/
theorem C5_unrecognized_client_auth_message {α : Type} (msg : String) :
    listInstances (α := α) (.throwErr "UnrecognizedClientException" msg) =
      .fatal [] authErrorMsg 1 ∧
      authErrorMsg ≠ listErrorMsg msg ∧
      exitCode
        (listInstances (α := α) (.throwErr "UnrecognizedClientException" msg)) = 1 := by
  refine ⟨rfl, ?_, rfl⟩
  intro h
  have hd := congrArg String.data h
  rw [listErrorMsg, string_data_append] at hd
  have hh := congrArg List.head? hd
  simp [authErrorMsg] at hh

/-- C6: a thrown Error whose name is not UnrecognizedClientException yields
the generic listing-error message holding the underlying message, with exit
status 1; for the underlying message timeout the emitted message is exactly
the expected string. -/
theorem C6_generic_error_message {α : Type} (n msg : String)
    (h : n ≠ "UnrecognizedClientException") :
    listInstances (α := α) (.throwErr n msg) =
      .fatal [] (listErrorMsg msg) 1 ∧
      exitCode (listInstances (α := α) (.throwErr n msg)) = 1 ∧
      listErrorMsg "timeout" = "Error listing Amazon Connect instances: timeout" := by
  have hb : (n == "UnrecognizedClientException") = false := by
    simp [h]
  refine ⟨?_, ?_, rfl⟩ <;> simp [listInstances, hb, defaultErrorExit, exitCode]

/-- Witness for C6 at a concrete error named SomeError with message
timeout. -/
theorem C6_generic_error_message_witness :
    listInstances (α := Nat) (.throwErr "SomeError" "timeout") =
      .fatal [] (listErrorMsg "timeout") 1 ∧
      exitCode (listInstances (α := Nat) (.throwErr "SomeError" "timeout")) = 1 ∧
      listErrorMsg "timeout" = "Error listing Amazon Connect instances: timeout" :=
  C6_generic_error_message "SomeError" "timeout" (by decide)

/-- C7: a thrown value that is not an Error instance is swallowed by the
catch block: nothing is emitted on any output channel and the command
returns normally with exit status 0. -/
theorem C7_non_error_swallowed {α : Type} :
    listInstances (α := α) ClientOutcome.throwNonError = CmdResult.ok [] ∧
      exitCode (listInstances (α := α) ClientOutcome.throwNonError) = 0 :=
  ⟨rfl, rfl⟩

/-- C8: a successful response carrying an empty instance list produces
exactly the informational no-instances log line, no instance dump, and a
normal return with exit status 0. -/
theorem C8_empty_list_informational {α : Type} :
    listInstances (α := α) (.success (some [])) =
      .ok [.logLine noInstancesMsg] ∧
      exitCode (listInstances (α := α) (.success (some []))) = 0 :=
  ⟨rfl, rfl⟩

/-- C9: a successful response with one or more instance summaries prints
exactly the returned list, element for element, with no transformation, and
nothing else. -/
theorem C9_nonempty_list_roundtrip {α : Type} (xs : List α) (h : xs ≠ []) :
    listInstances (.success (some xs)) = .ok [.instancesDump xs] := by
  have hl : (xs.length == 0) = false := by
    cases xs with
    | nil => exact absurd rfl h
    | cons a l => rfl
  simp [listInstances, hl]

/-- Witness for C9 at a concrete two-element list. -/
theorem C9_nonempty_list_roundtrip_witness :
    listInstances (.success (some [1, 2])) =
      CmdResult.ok [OutputLine.instancesDump [1, 2]] :=
  C9_nonempty_list_roundtrip [1, 2] (by decide)

/-- C10: a successful response with no instance-summary list at all behaves
exactly like the empty-list case: the informational log line and a normal
return. -/
theorem C10_absent_list_like_empty {α : Type} :
    listInstances (α := α) (.success none) =
      listInstances (α := α) (.success (some [])) ∧
      listInstances (α := α) (.success none) = .ok [.logLine noInstancesMsg] ∧
      exitCode (listInstances (α := α) (.success none)) = 0 :=
  ⟨rfl, rfl, rfl⟩
